import Mathlib

/-!
Shallow embedding of the ceremony core of the `nitro-pinky-swear` repository.

The pure logic of the TypeScript sources is translated into executable Lean
definitions:

* `src/app/shared/zk/circom-compile.ts` and `ptau-file-info.ts`: PTAU
  catalog selection (`getExpectedPtauFileInfo`, `ptauFiles`).  The JavaScript
  left-shift `1 << P` is modelled with its real 32-bit wrap-around semantics
  (`jsShl1`), and the `while` loop with an explicit fuel that is large enough
  for every terminating execution of the source.
* `src/app/shared/drand-utils.ts`: beacon verification (`verifyBeacon`,
  `randomnessIsValid`) parametrised over the external hash and pairing
  primitives, and the round arithmetic `getRoundAt` / `getRoundTime`, which
  the source delegates to the external `drand-client` package and which is
  therefore modelled from the specification formulas.
* `src/app/enclave/attestation/attestation.ts`: COSE / attestation document
  parsing and signature verification (`decodeCoseSign1`,
  `parseAttestationDocument`, `verifyAttestationSignatures`), parametrised
  over the external CBOR codec and X.509 machinery.
* `src/app/shared/vsock/vsock-comms.ts` and `proto.ts`: the framed file
  transport (`lowSendBytes` for the sender, `awaitFilesRun` for the
  byte-driven receiver state machine).
* the COMMIT step of `src/app/enclave/run-enclave-ceremony.ts`
  (`commitStep`), parametrised over the file-hashing oracle.

Machine integers are modelled as `Nat` / `Int` with explicit wrap-around
where the JavaScript semantics overflows.  Fallible code returns `Except`
or `Option`.
-/

/-- Bytes are modelled as lists of naturals, one entry per octet. -/
abbrev Bytes := List Nat

/-- Little-endian encoding of `v` into `k` bytes, as produced by
`Buffer.writeBigUInt64LE` (k = 8) and `Buffer.writeUInt16LE` (k = 2)
in `lowSend` (`proto.ts`). -/
def toLE : Nat → Nat → Bytes
  | 0, _ => []
  | k+1, v => v % 256 :: toLE k (v / 256)

/-- Little-endian read of `k` bytes from the front of a buffer, as
`Buffer.readBigUInt64LE` / `Buffer.readUInt16LE` in the receivers. -/
def leRead : Nat → Bytes → Nat
  | 0, _ => 0
  | _+1, [] => 0
  | k+1, a :: r => a + 256 * leRead k r

/-- Big-endian encoding of `v` into `k` bytes, as produced by
`Buffer.writeBigUInt64BE` in `roundBuffer` (`drand-utils.ts`). -/
def toBE (k : Nat) (v : Nat) : Bytes :=
  (toLE k v).reverse

/-- Value of a single hexadecimal digit, lower or upper case. -/
def hexDigitVal (c : Char) : Option Nat :=
  if 48 ≤ c.toNat ∧ c.toNat ≤ 57 then some (c.toNat - 48)
  else if 97 ≤ c.toNat ∧ c.toNat ≤ 102 then some (c.toNat - 87)
  else if 65 ≤ c.toNat ∧ c.toNat ≤ 70 then some (c.toNat - 55)
  else none

/-- Hex decoding of a character list, with the Node `Buffer.from(s, "hex")`
semantics: decoding stops at the first pair that is not two hex digits, and
a trailing odd character is dropped. -/
def hexDecodeChars : List Char → Bytes
  | c1 :: c2 :: rest =>
    match hexDigitVal c1, hexDigitVal c2 with
    | some a, some b => (16 * a + b) :: hexDecodeChars rest
    | _, _ => []
  | _ => []

/-- Model of `Buffer.from(s, "hex")`. -/
def hexDecode (s : String) : Bytes :=
  hexDecodeChars s.data

/-- Lower-case hex digit for a value below 16. -/
def hexDigitOfNat (n : Nat) : Char :=
  if n < 10 then Char.ofNat (48 + n) else Char.ofNat (87 + n)

/-- Model of `buffer.toString("hex")` (lower-case). -/
def hexEncode (b : Bytes) : String :=
  String.mk (b.foldr (fun x acc => hexDigitOfNat (x / 16) :: hexDigitOfNat (x % 16) :: acc) [])

/-- UTF-8 bytes of a string, as `Buffer.from(s, "utf8")`. -/
def utf8Bytes (s : String) : Bytes :=
  s.toUTF8.toList.map (fun b => b.toNat)

/-- Decoding of received name bytes into a string, as
`buffer.toString("utf8")`.  On ASCII bytes (the only names exercised here)
this agrees with UTF-8 decoding. -/
def bytesToString (bs : Bytes) : String :=
  String.mk (bs.map (fun b => Char.ofNat b))

/-! ## PTAU catalog and selection

`src/app/shared/zk/ptau-file-info.ts` and
`src/app/shared/zk/circom-compile.ts`. -/

/-- One entry of the frozen PTAU table (`PtauFileInfo` in
`ptau-file-info.ts`). -/
structure PtauFileInfo where
  maxConstraints : Nat
  blake2b : String
  power : Nat
  url : String
deriving DecidableEq, Repr

/-- The frozen `ptauFiles` table, keyed by power `P`.  Powers outside
`[8, 28]` are absent, as in the source record. -/
def ptauFiles : Nat → Option PtauFileInfo
  | 8 => some ⟨256, "d6a8fb3a04feb600096c3b791f936a578c4e664d262e4aa24beed1b7a9a96aa5eb72864d628db247e9293384b74b36ffb52ca8d148d6e1b8b51e279fdf57b583", 8, "https://storage.googleapis.com/zkevm/ptau/powersOfTau28_hez_final_08.ptau"⟩
  | 9 => some ⟨512, "94f108a80e81b5d932d8e8c9e8fd7f46cf32457e31462deeeef37af1b71c2c1b3c71fb0d9b59c654ec266b042735f50311f9fd1d4cadce47ab234ad163157cb5", 9, "https://storage.googleapis.com/zkevm/ptau/powersOfTau28_hez_final_09.ptau"⟩
  | 10 => some ⟨1024, "6cfeb8cda92453099d20120bdd0e8a5c4e7706c2da9a8f09ccc157ed2464d921fd0437fb70db42104769efd7d6f3c1f964bcf448c455eab6f6c7d863e88a5849", 10, "https://storage.googleapis.com/zkevm/ptau/powersOfTau28_hez_final_10.ptau"⟩
  | 11 => some ⟨2048, "47c282116b892e5ac92ca238578006e31a47e7c7e70f0baa8b687f0a5203e28ea07bbbec765a98dcd654bad618475d4661bfaec3bd9ad2ed12e7abc251d94d33", 11, "https://storage.googleapis.com/zkevm/ptau/powersOfTau28_hez_final_11.ptau"⟩
  | 12 => some ⟨4096, "ded2694169b7b08e898f736d5de95af87c3f1a64594013351b1a796dbee393bd825f88f9468c84505ddd11eb0b1465ac9b43b9064aa8ec97f2b73e04758b8a4a", 12, "https://storage.googleapis.com/zkevm/ptau/powersOfTau28_hez_final_12.ptau"⟩
  | 13 => some ⟨8192, "58efc8bf2834d04768a3d7ffcd8e1e23d461561729beaac4e3e7a47829a1c9066d5320241e124a1a8e8aa6c75be0ba66f65bc8239a0542ed38e11276f6fdb4d9", 13, "https://storage.googleapis.com/zkevm/ptau/powersOfTau28_hez_final_13.ptau"⟩
  | 14 => some ⟨16384, "eeefbcf7c3803b523c94112023c7ff89558f9b8e0cf5d6cdcba3ade60f168af4a181c9c21774b94fbae6c90411995f7d854d02ebd93fb66043dbb06f17a831c1", 14, "https://storage.googleapis.com/zkevm/ptau/powersOfTau28_hez_final_14.ptau"⟩
  | 15 => some ⟨32768, "982372c867d229c236091f767e703253249a9b432c1710b4f326306bfa2428a17b06240359606cfe4d580b10a5a1f63fbed499527069c18ae17060472969ae6e", 15, "https://storage.googleapis.com/zkevm/ptau/powersOfTau28_hez_final_15.ptau"⟩
  | 16 => some ⟨65536, "6a6277a2f74e1073601b4f9fed6e1e55226917efb0f0db8a07d98ab01df1ccf43eb0e8c3159432acd4960e2f29fe84a4198501fa54c8dad9e43297453efec125", 16, "https://storage.googleapis.com/zkevm/ptau/powersOfTau28_hez_final_16.ptau"⟩
  | 17 => some ⟨131072, "6247a3433948b35fbfae414fa5a9355bfb45f56efa7ab4929e669264a0258976741dfbe3288bfb49828e5df02c2e633df38d2245e30162ae7e3bcca5b8b49345", 17, "https://storage.googleapis.com/zkevm/ptau/powersOfTau28_hez_final_17.ptau"⟩
  | 18 => some ⟨262144, "7e6a9c2e5f05179ddfc923f38f917c9e6831d16922a902b0b4758b8e79c2ab8a81bb5f29952e16ee6c5067ed044d7857b5de120a90704c1d3b637fd94b95b13e", 18, "https://storage.googleapis.com/zkevm/ptau/powersOfTau28_hez_final_18.ptau"⟩
  | 19 => some ⟨524288, "bca9d8b04242f175189872c42ceaa21e2951e0f0f272a0cc54fc37193ff6648600eaf1c555c70cdedfaf9fb74927de7aa1d33dc1e2a7f1a50619484989da0887", 19, "https://storage.googleapis.com/zkevm/ptau/powersOfTau28_hez_final_19.ptau"⟩
  | 20 => some ⟨1048576, "89a66eb5590a1c94e3f1ee0e72acf49b1669e050bb5f93c73b066b564dca4e0c7556a52b323178269d64af325d8fdddb33da3a27c34409b821de82aa2bf1a27b", 20, "https://storage.googleapis.com/zkevm/ptau/powersOfTau28_hez_final_20.ptau"⟩
  | 21 => some ⟨2097152, "9aef0573cef4ded9c4a75f148709056bf989f80dad96876aadeb6f1c6d062391f07a394a9e756d16f7eb233198d5b69407cca44594c763ab4a5b67ae73254678", 21, "https://storage.googleapis.com/zkevm/ptau/powersOfTau28_hez_final_21.ptau"⟩
  | 22 => some ⟨4194304, "0d64f63dba1a6f11139df765cb690da69d9b2f469a1ddd0de5e4aa628abb28f787f04c6a5fb84a235ec5ea7f41d0548746653ecab0559add658a83502d1cb21b", 22, "https://storage.googleapis.com/zkevm/ptau/powersOfTau28_hez_final_22.ptau"⟩
  | 23 => some ⟨8388608, "3063a0bd81d68711197c8820a92466d51aeac93e915f5136d74f63c394ee6d88c5e8016231ea6580bec02e25d491f319d92e77f5c7f46a9caa8f3b53c0ea544f", 23, "https://storage.googleapis.com/zkevm/ptau/powersOfTau28_hez_final_23.ptau"⟩
  | 24 => some ⟨16777216, "fa404d140d5819d39984833ca5ec3632cd4995f81e82db402371a4de7c2eae8687c62bc632a95b0c6aadba3fb02680a94e09174b7233ccd26d78baca2647c733", 24, "https://storage.googleapis.com/zkevm/ptau/powersOfTau28_hez_final_24.ptau"⟩
  | 25 => some ⟨33554432, "0377d860cdb09a8a31ea1b0b8c04335614c8206357181573bf294c25d5ca7dff72387224fbd868897e6769f7805b3dab02854aec6d69d7492883b5e4e5f35eeb", 25, "https://storage.googleapis.com/zkevm/ptau/powersOfTau28_hez_final_25.ptau"⟩
  | 26 => some ⟨67108864, "418dee4a74b9592198bd8fd02ad1aea76f9cf3085f206dfd7d594c9e264ae919611b1459a1cc920c2f143417744ba9edd7b8d51e44be9452344a225ff7eead19", 26, "https://storage.googleapis.com/zkevm/ptau/powersOfTau28_hez_final_26.ptau"⟩
  | 27 => some ⟨134217728, "10ffd99837c512ef99752436a54b9810d1ac8878d368fb4b806267bdd664b4abf276c9cd3c4b9039a1fa4315a0c326c0e8e9e8fe0eb588ffd4f9021bf7eae1a1", 27, "https://storage.googleapis.com/zkevm/ptau/powersOfTau28_hez_final_27.ptau"⟩
  | 28 => some ⟨268435456, "55c77ce8562366c91e7cda394cf7b7c15a06c12d8c905e8b36ba9cf5e13eb37d1a429c589e8eaba4c591bc4b88a0e2828745a53e170eac300236f5c1a326f41a", 28, "https://storage.googleapis.com/zkevm/ptau/powersOfTau28_hez_final_28.ptau"⟩
  | _ => none

/-- JavaScript `1 << P`: both operands are coerced to 32-bit integers and
the shift count is taken modulo 32, so the result is the signed 32-bit
value of `2 ^ (P % 32)`.  In particular `1 << 31 = -2^31` and
`1 << 32 = 1`. -/
def jsShl1 (P : Nat) : Int :=
  if P % 32 == 31 then -(2 ^ 31) else (2 : Int) ^ (P % 32)

/-- The `while ((1 << P) < totalConstraints) P++` loop of
`getExpectedPtauFileInfo` (`circom-compile.ts`), with an explicit fuel.
Running out of fuel returns `none`; theorem `ptauLoop_none_of_big` shows
the fuel bound is irrelevant exactly where the source loop diverges. -/
def ptauLoop : Nat → Nat → Int → Option Nat
  | 0, _, _ => none
  | fuel+1, P, n => if jsShl1 P < n then ptauLoop fuel (P+1) n else some P

/-- Model of `getExpectedPtauFileInfo` (`circom-compile.ts`).  The
`snarkjs` call `r1cs.info` is external; its constraint count is the
argument `n` (the source coerces `nConstraints ?? 0` to a number).  The
source then runs the shift loop from `P = 1`, clamps `P` into `[8, 28]`
and indexes the frozen table.  Fuel 64 covers every terminating run of
the source loop (they all stop with `P ≤ 30`). -/
def getExpectedPtauFileInfo (n : Int) : Option PtauFileInfo :=
  (ptauLoop 64 1 n).bind fun P => ptauFiles (min 28 (max 8 P))

/-- Specification-side definition (for the refinement comparison): the
smallest natural `P` with `2 ^ P ≥ n`. -/
def spec_smallestP (n : Int) : Nat :=
  Nat.find (p := fun P => n ≤ (2 : Int) ^ P)
    ⟨n.toNat, by
      rcases le_or_lt n 0 with h | h
      · exact h.trans (by positivity)
      · calc n = ((n.toNat : Int)) := by rw [Int.toNat_of_nonneg h.le]
          _ ≤ ((2 ^ n.toNat : Nat) : Int) := by exact_mod_cast (Nat.lt_two_pow n.toNat).le
          _ = (2 : Int) ^ n.toNat := by push_cast; ring⟩

/-! ## Drand round arithmetic and beacon verification

`src/app/shared/drand-utils.ts`.  The pinned chain constants come from
`DEFAULT_CHAIN_INFO` in the source. -/

/-- Pinned drand chain information (`DEFAULT_CHAIN_INFO` in
`drand-utils.ts`). -/
structure ChainInfo where
  public_key : String
  period : Int
  genesis_time : Int
  hash : String
  groupHash : String
  schemeID : String
deriving DecidableEq

/-- The pinned mainline drand chain. -/
def DEFAULT_CHAIN_INFO : ChainInfo :=
  { public_key := "868f005eb8e6e4ca0a47c8a77ceaa5309a47978a7c71bc5cce96366b5d7a569937c529eeda66c7293784a9402801af31"
    period := 30
    genesis_time := 1595431050
    hash := "8990e7a9aaed2ffed73dbd7092123d6f289930540d7651336225dc172e51b2ce"
    groupHash := "176f93498eac9ca337150b46d21dd58673ea4e3581185f869672e59fa4cb390a"
    schemeID := "pedersen-bls-chained" }

/-- Modelled from the spec: `round_at` of the external `drand-client`
package (the source `getRoundAt` only forwards to it).  The specification
gives `round_at(t_ms) = max(1, floor((t_ms/1000 - genesis_time) / period) + 1)`;
with integer arguments the double floor equals one floor over milliseconds.
Times are in milliseconds. -/
def getRoundAt (unixTimeMs : Int) : Int :=
  max 1 ((Int.fdiv (unixTimeMs - DEFAULT_CHAIN_INFO.genesis_time * 1000)
    (DEFAULT_CHAIN_INFO.period * 1000)) + 1)

/-- Modelled from the spec: `round_time` of the external `drand-client`
package (`round_time(r) = genesis_time + (r-1) * period`, converted to
milliseconds, which is what the host compares against `Date.now()`). -/
def getRoundTime (round : Int) : Int :=
  DEFAULT_CHAIN_INFO.genesis_time * 1000 + (round - 1) * DEFAULT_CHAIN_INFO.period * 1000

/-- Parsed beacon JSON, as consumed by `verifyBeacon` (`drand-utils.ts`).
A beacon carries no scheme tag of its own. -/
structure DrandBeacon where
  round : Int
  randomness : String
  signature : String
  previous_signature : Option String
deriving DecidableEq

/-- External cryptographic primitives used by `verifyBeacon`: SHA-256 and
keccak-256 from `@noble/hashes`, G2 BLS verification (`bls.verify`), the
manual G1 verification of the source (`verifySigOnG1`, taking a domain
separation tag), and the bn254 short-signature verification. -/
structure BeaconPrims where
  sha256 : Bytes → Bytes
  keccak256 : Bytes → Bytes
  blsVerifyG2 : String → Bytes → String → Bool
  verifySigOnG1 : String → Bytes → String → String → Bool
  bn254Verify : String → Bytes → String → String → Bool

/-- JavaScript truthiness of a string field: present and non-empty. -/
def jsTruthy : Option String → Bool
  | none => false
  | some s => s != ""

/-- Modelled from the spec: type guard `isChainedBeacon` of the external
`drand-client` package.  It requires the pinned scheme id
`pedersen-bls-chained` plus truthy `previous_signature`, `randomness`,
`signature` and a positive round. -/
def isChainedBeacon (b : DrandBeacon) (c : ChainInfo) : Bool :=
  c.schemeID == "pedersen-bls-chained" && jsTruthy b.previous_signature &&
    b.randomness != "" && b.signature != "" && decide (0 < b.round)

/-- Modelled from the spec: type guard `isUnchainedBeacon` of
`drand-client`: unchained scheme id, truthy fields, no
`previous_signature`. -/
def isUnchainedBeacon (b : DrandBeacon) (c : ChainInfo) : Bool :=
  c.schemeID == "pedersen-bls-unchained" && b.randomness != "" &&
    b.signature != "" && b.previous_signature == none && decide (0 < b.round)

/-- Modelled from the spec: type guard `isG1G2SwappedBeacon` of
`drand-client`. -/
def isG1G2SwappedBeacon (b : DrandBeacon) (c : ChainInfo) : Bool :=
  c.schemeID == "bls-unchained-on-g1" && b.randomness != "" &&
    b.signature != "" && b.previous_signature == none && decide (0 < b.round)

/-- Modelled from the spec: type guard `isG1Rfc9380` of `drand-client`. -/
def isG1Rfc9380 (b : DrandBeacon) (c : ChainInfo) : Bool :=
  c.schemeID == "bls-unchained-g1-rfc9380" && b.randomness != "" &&
    b.signature != "" && b.previous_signature == none && decide (0 < b.round)

/-- Modelled from the spec: type guard `isBn254OnG1` of `drand-client`. -/
def isBn254OnG1 (b : DrandBeacon) (c : ChainInfo) : Bool :=
  c.schemeID == "bls-bn254-unchained-on-g1" && b.randomness != "" &&
    b.signature != "" && b.previous_signature == none && decide (0 < b.round)

/-- Model of `roundBuffer` (`drand-utils.ts`): 8-byte big-endian encoding
of the round number. -/
def roundBuffer (round : Int) : Bytes :=
  toBE 8 round.toNat

/-- Model of `chainedBeaconMessage`: SHA-256 of
`previous_signature_bytes ++ round_be64`. -/
def chainedBeaconMessage (prims : BeaconPrims) (b : DrandBeacon) : Bytes :=
  prims.sha256 (hexDecode (b.previous_signature.getD "") ++ roundBuffer b.round)

/-- Model of `unchainedBeaconMessage` with an arbitrary hash function. -/
def unchainedBeaconMessage (hashFn : Bytes → Bytes) (b : DrandBeacon) : Bytes :=
  hashFn (roundBuffer b.round)

/-- Model of `randomnessIsValid` (`drand-utils.ts`): the hex-decoded
`randomness` field equals SHA-256 of the hex-decoded `signature`. -/
def randomnessIsValid (prims : BeaconPrims) (b : DrandBeacon) : Bool :=
  hexDecode b.randomness == prims.sha256 (hexDecode b.signature)

/-- Model of `verifyBeacon` (`drand-utils.ts`): round equality, then the
randomness check, then scheme dispatch on the pinned
`DEFAULT_CHAIN_INFO.schemeID` — never on any field of the beacon beyond
the presence checks in the guards. -/
def verifyBeacon (prims : BeaconPrims) (beacon : DrandBeacon) (expectedRound : Int) : Bool :=
  if beacon.round != expectedRound then false
  else if !(randomnessIsValid prims beacon) then false
  else if isChainedBeacon beacon DEFAULT_CHAIN_INFO then
    prims.blsVerifyG2 beacon.signature (chainedBeaconMessage prims beacon)
      DEFAULT_CHAIN_INFO.public_key
  else if isUnchainedBeacon beacon DEFAULT_CHAIN_INFO then
    prims.blsVerifyG2 beacon.signature (unchainedBeaconMessage prims.sha256 beacon)
      DEFAULT_CHAIN_INFO.public_key
  else if isG1G2SwappedBeacon beacon DEFAULT_CHAIN_INFO then
    prims.verifySigOnG1 beacon.signature (unchainedBeaconMessage prims.sha256 beacon)
      DEFAULT_CHAIN_INFO.public_key "BLS_SIG_BLS12381G2_XMD:SHA-256_SSWU_RO_NUL_"
  else if isG1Rfc9380 beacon DEFAULT_CHAIN_INFO then
    prims.verifySigOnG1 beacon.signature (unchainedBeaconMessage prims.sha256 beacon)
      DEFAULT_CHAIN_INFO.public_key "BLS_SIG_BLS12381G1_XMD:SHA-256_SSWU_RO_NUL_"
  else if isBn254OnG1 beacon DEFAULT_CHAIN_INFO then
    prims.bn254Verify beacon.signature (unchainedBeaconMessage prims.keccak256 beacon)
      DEFAULT_CHAIN_INFO.public_key "BLS_SIG_BN254G1_XMD:KECCAK-256_SVDW_RO_NUL_"
  else false

/-! ## Attestation codec and verifier

`src/app/enclave/attestation/attestation.ts`.  The external `cbor`
package and the Node `crypto` X.509 machinery are parameters of the
model (`AttEnv`); everything after decoding is translated from the
source. -/

/-- Decoded CBOR items as delivered by `cbor.decodeFirstSync`.  String-keyed
maps become plain objects and integer-keyed maps become `Map` instances in
JavaScript; both are a `map` here, distinguished by their key items.
`nul` stands for a decoded CBOR null / undefined value. -/
inductive CborItem where
  | int (n : Int)
  | bytes (b : Bytes)
  | text (s : String)
  | arr (xs : List CborItem)
  | map (kvs : List (CborItem × CborItem))
  | tagged (tag : Nat) (v : CborItem)
  | bool (b : Bool)
  | nul

/-- A parsed X.509 certificate as exposed by Node `crypto.X509Certificate`:
the raw DER bytes, issuer and subject distinguished names, the validity
window (already converted by `Date.parse` to milliseconds) and an opaque
public key. -/
structure X509Cert where
  raw : Bytes
  issuer : String
  subject : String
  validFromMs : Int
  validToMs : Int
  publicKey : Bytes

/-- External environment of the attestation verifier: CBOR decode/encode,
X.509 parsing (`new crypto.X509Certificate`, `none` when the constructor
throws), certificate signature verification (`child.verify(issuerKey)`),
ECDSA-SHA384 verification (`crypto.createVerify`), the current clock
`Date.now()`, and the DER bytes of the pinned root certificate. -/
structure AttEnv where
  cborDecode : Bytes → Option CborItem
  cborEncode : CborItem → Bytes
  parseX509 : Bytes → Option X509Cert
  certVerify : X509Cert → Bytes → Bool
  ecdsaVerify : Bytes → Bytes → Bytes → Bool
  nowMs : Int
  pinnedRootRaw : Bytes

/-- Validation of the unwrapped COSE item: a four-element array whose
first, third and fourth entries are byte strings.  Returns
(protected header bytes, unprotected header, payload, signature). -/
def decodeCoseArr : CborItem → Except String (Bytes × CborItem × Bytes × Bytes)
  | .arr [p, u, pay, s] =>
    match p, pay, s with
    | .bytes pb, .bytes payb, .bytes sb => .ok (pb, u, payb, sb)
    | _, _, _ => .error "COSE component is not a byte string"
  | _ => .error "malformed COSE_Sign1 structure"

/-- Model of `decodeCoseSign1`: decode the first CBOR item (a decoder
exception is `none`), unwrap a tag 18 wrapper (any other tag throws),
then validate the four-element sequence. -/
def decodeCoseSign1 (env : AttEnv) (cose : Bytes) :
    Except String (Bytes × CborItem × Bytes × Bytes) :=
  match env.cborDecode cose with
  | none => .error "malformed CBOR"
  | some (.tagged t v) =>
    if t == 18 then decodeCoseArr v else .error "unsupported COSE tag"
  | some d => decodeCoseArr d

/-- Model of `ecdsaRsToDer`: convert a raw `r ‖ s` signature into the
ASN.1 DER form the source builds by hand.  Odd-length input throws.  The
single length bytes are written modulo 256, exactly as
`Buffer.from([0x02, v.length])` truncates. -/
def ecdsaRsToDer (rawSig : Bytes) : Except String Bytes := do
  if rawSig.length % 2 != 0 then throw "invalid ECDSA signature length"
  let r := rawSig.take (rawSig.length / 2)
  let s := rawSig.drop (rawSig.length / 2)
  let encodeInt : Bytes → Bytes := fun buf =>
    let v := buf.drop (leadingZeros buf)
    let v := match v.head? with
      | some h => if 128 ≤ h then 0 :: v else v
      | none => v
    2 :: v.length % 256 :: v
  let rEnc := encodeInt r
  let sEnc := encodeInt s
  pure (48 :: (rEnc.length + sEnc.length) % 256 :: (rEnc ++ sEnc))
where
  /-- Number of leading zero bytes removed by the source loop
  (`while (i < buf.length - 1 && buf[i] === 0) i++`): all leading zeros
  except a final remaining byte. -/
  leadingZeros : Bytes → Nat
    | [] => 0
    | [_] => 0
    | 0 :: rest => 1 + leadingZeros rest
    | _ :: _ => 0

/-- Lookup of a string key in a decoded CBOR map, as JavaScript property
access on the object produced for string-keyed maps. -/
def cborLookup (kvs : List (CborItem × CborItem)) (k : String) : Option CborItem :=
  (kvs.find? fun kv => match kv.1 with | .text s => s == k | _ => false).map (fun kv => kv.2)

/-- Model of JavaScript `Number(x)` on the strings this code feeds it:
an optional sign followed by decimal digits (empty string is 0); anything
else is NaN, i.e. `none`. -/
def jsNumber (s : String) : Option Int :=
  if s == "" then some 0
  else if s.data.all (fun c => 48 ≤ c.toNat ∧ c.toNat ≤ 57) then
    some (s.data.foldl (fun acc c => 10 * acc + ((c.toNat : Int) - 48)) 0)
  else if s.startsWith "-" ∧ (s.drop 1).data ≠ [] ∧
      (s.drop 1).data.all (fun c => 48 ≤ c.toNat ∧ c.toNat ≤ 57) then
    some (-(s.drop 1).data.foldl (fun acc c => 10 * acc + ((c.toNat : Int) - 48)) 0)
  else none

/-- PCR index of one map key, as `Number(key)` plus the integer and range
checks of the source loop. -/
def pcrIdxOfKey (k : CborItem) : Except String Int := do
  let idx ← match k with
    | .int n => pure n
    | .text s =>
      match jsNumber s with
      | some n => pure n
      | none => throw "invalid PCR index"
    | _ => throw "invalid PCR index"
  if 0 ≤ idx ∧ idx < 32 then pure idx else throw "invalid PCR index"

/-- Validation of one PCR value: a byte string of length 32, 48 or 64. -/
def pcrValue (v : CborItem) : Except String String := do
  match v with
  | .bytes b =>
    if b.length == 32 ∨ b.length == 48 ∨ b.length == 64 then pure (hexEncode b)
    else throw "PCR has invalid length"
  | _ => throw "PCR value is not a byte string"

/-- The strongly typed attestation document built by
`parseAttestationDocument` (hex strings exactly as in the source). -/
structure AttestationDocument where
  module_id : String
  digest : String
  timestamp : Int
  pcrs : List (Int × String)
  certificate : String
  cabundle : List String
  public_key : Option String
  user_data : Option String
  nonce : Option String

/-- Validation and conversion of one optional byte-string field
(`checkOptionalBuffer` plus the later `Buffer.isBuffer` assignment):
absent or null fields stay `none`, a present field must be a byte string
of length at most `max`.  The source passes `max = 512` for the nonce. -/
def optionalBuffer (kvs : List (CborItem × CborItem)) (name : String) (max : Nat) :
    Except String (Option String) := do
  match cborLookup kvs name with
  | none => pure none
  | some .nul => pure none
  | some (.bytes b) =>
    if b.length > max then throw "field exceeds max length" else pure (some (hexEncode b))
  | some _ => throw "field must be a byte string"

/-- Structural validation of the decoded payload map, translated from the
body of `parseAttestationDocument` after the CBOR decode. -/
def parsePayload (kvs : List (CborItem × CborItem)) : Except String AttestationDocument := do
  let mandatory := ["module_id", "digest", "timestamp", "pcrs", "certificate", "cabundle"]
  if !(mandatory.all fun k => (cborLookup kvs k).isSome) then
    throw "missing mandatory field"
  let module_id ← match cborLookup kvs "module_id" with
    | some (.text s) => if s.length != 0 then pure s else throw "invalid module_id"
    | _ => throw "invalid module_id"
  let digest ← match cborLookup kvs "digest" with
    | some (.text s) => if s == "SHA384" then pure s else throw "unsupported digest"
    | _ => throw "unsupported digest"
  let timestamp ← match cborLookup kvs "timestamp" with
    | some (.int n) => if 0 < n then pure n else throw "invalid timestamp"
    | _ => throw "invalid timestamp"
  let pcrs ← match cborLookup kvs "pcrs" with
    | some (.map pkvs) =>
      pkvs.mapM (fun kv => do
        let idx ← pcrIdxOfKey kv.1
        let v ← pcrValue kv.2
        pure (idx, v))
    | some (.arr vs) =>
      (List.range vs.length).zip vs |>.mapM (fun kv => do
        let v ← pcrValue kv.2
        if (kv.1 : Nat) < 32 then pure ((kv.1 : Int), v) else throw "invalid PCR index")
    | _ => throw "invalid pcrs map"
  if pcrs.length == 0 then throw "pcrs map cannot be empty"
  let certificate ← match cborLookup kvs "certificate" with
    | some (.bytes b) =>
      if b.length == 0 ∨ b.length > 1024 then throw "invalid certificate field"
      else pure (hexEncode b)
    | _ => throw "invalid certificate field"
  let cabundle ← match cborLookup kvs "cabundle" with
    | some (.arr cs) =>
      if cs.length == 0 then throw "invalid cabundle"
      else cs.mapM (fun c => match c with
        | .bytes b =>
          if b.length == 0 ∨ b.length > 1024 then throw "invalid cabundle certificate"
          else pure (hexEncode b)
        | _ => throw "invalid cabundle certificate")
    | _ => throw "invalid cabundle"
  let public_key ← optionalBuffer kvs "public_key" 1024
  let user_data ← optionalBuffer kvs "user_data" 512
  let nonce ← optionalBuffer kvs "nonce" 512
  pure ⟨module_id, digest, timestamp, pcrs, certificate, cabundle, public_key, user_data, nonce⟩

/-- Model of `parseAttestationDocument`: COSE decode, CBOR-decode the
payload, demand a map and validate it.  Any failure is a thrown
exception (`Except.error`). -/
def parseAttestationDocument (env : AttEnv) (attestation : Bytes) :
    Except String AttestationDocument := do
  let (_, _, payload, _) ← decodeCoseSign1 env attestation
  let item ← match env.cborDecode payload with
    | some i => pure i
    | none => throw "malformed payload CBOR"
  match item with
  | .map kvs => parsePayload kvs
  | _ => throw "payload is not a map"

/-- Algorithm check on the protected header (`COSE_HEADER_ALG = 1` must
map to `-35`): decode the header bytes, look key 1 up in the resulting
map (or object) and compare with strict equality. -/
def protectedAlgOk (env : AttEnv) (protectedHeaderBytes : Bytes) : Except String Unit := do
  let item ← match env.cborDecode protectedHeaderBytes with
    | some i => pure i
    | none => throw "malformed protected header"
  let algVal : Option CborItem := match item with
    | .map kvs =>
      (kvs.find? fun kv => match kv.1 with
        | .int n => n == 1
        | .text s => s == "1"
        | _ => false).map (fun kv => kv.2)
    | _ => none
  match algVal with
  | some (.int n) => if n == -35 then pure () else throw "unsupported COSE algorithm"
  | _ => throw "unsupported COSE algorithm"

/-- Chain construction: the leaf certificate from `certificate` followed
by the `cabundle` certificates in reversed order, each parsed with
`new crypto.X509Certificate` (a parse failure throws). -/
def buildChain (env : AttEnv) (doc : AttestationDocument) : Except String (List X509Cert) := do
  let leaf ← match env.parseX509 (hexDecode doc.certificate) with
    | some c => pure c
    | none => throw "invalid leaf certificate"
  let rest ← doc.cabundle.reverse.mapM (fun h => match env.parseX509 (hexDecode h) with
    | some c => pure c
    | none => throw "invalid cabundle certificate")
  pure (leaf :: rest)

/-- Model of `isCertCurrentlyValid`: the clock lies inside the validity
window. -/
def isCertCurrentlyValid (env : AttEnv) (cert : X509Cert) : Bool :=
  decide (cert.validFromMs ≤ env.nowMs) && decide (env.nowMs ≤ cert.validToMs)

/-- The per-pair loop over the chain: issuer/subject match, temporal
validity of the child, and the signature of the child under the issuer
public key. -/
def chainPairsOk (env : AttEnv) : List X509Cert → Except String Unit
  | [] => pure ()
  | [_] => pure ()
  | child :: issuer :: rest => do
    if !(child.issuer == issuer.subject) then
      throw "certificate issuer/subject mismatch in chain"
    if !(isCertCurrentlyValid env child) then throw "certificate is not currently valid"
    if !(env.certVerify child issuer.publicKey) then
      throw "certificate signature verification failed"
    chainPairsOk env (issuer :: rest)

/-- The COSE `Sig_structure` bytes rebuilt by the source before the final
ECDSA verification. -/
def sigStructureBytes (env : AttEnv) (protectedHeaderBytes payload : Bytes) : Bytes :=
  env.cborEncode (.arr [.text "Signature1", .bytes protectedHeaderBytes, .bytes [], .bytes payload])

/-- The `try` body of `verifyAttestationSignatures`, step for step: COSE
decode, algorithm check, document parse, chain construction, pinned-root
comparison, per-pair chain validation, root validity, raw-to-DER
signature conversion, and the final ECDSA check over the rebuilt
`Sig_structure`.  Each thrown error short-circuits. -/
def verifyAttE (env : AttEnv) (attestation : Bytes) : Except String Unit :=
  match decodeCoseSign1 env attestation with
  | .error e => .error e
  | .ok (protectedHeaderBytes, _, payload, signature) =>
    match protectedAlgOk env protectedHeaderBytes with
    | .error e => .error e
    | .ok _ =>
      match parseAttestationDocument env attestation with
      | .error e => .error e
      | .ok doc =>
        match buildChain env doc with
        | .error e => .error e
        | .ok chain =>
          match chain.getLast? with
          | none => .error "empty chain"
          | some root =>
            if !(root.raw == env.pinnedRootRaw) then
              .error "certificate chain does not terminate at the pinned root"
            else
              match chainPairsOk env chain with
              | .error e => .error e
              | .ok _ =>
                if !(isCertCurrentlyValid env root) then
                  .error "root certificate is not currently valid"
                else
                  match ecdsaRsToDer signature with
                  | .error e => .error e
                  | .ok derSignature =>
                    match chain.head? with
                    | none => .error "empty chain"
                    | some leaf =>
                      if !(env.ecdsaVerify leaf.publicKey derSignature
                          (sigStructureBytes env protectedHeaderBytes payload)) then
                        .error "COSE signature verification failed"
                      else .ok ()

/-- Model of `verifyAttestationSignatures`: the whole pipeline runs inside
one `try`; every thrown error is caught and turned into `false`, so the
function is total and boolean-valued on arbitrary inputs. -/
def verifyAttestationSignatures (env : AttEnv) (attestation : Bytes) : Bool :=
  match verifyAttE env attestation with
  | .ok _ => true
  | .error _ => false

/-! ## Framed local transport

Sender `lowSend` (`proto.ts`) and receiver `awaitFiles`
(`vsock-comms.ts`).  The receiver in `recvFile` (`proto.ts`) handles the
filename identically (`join(saveDir, filename)` with the raw wire name). -/

/-- Splitting a character list at every occurrence of `c` (structural
model of `String.splitOn` for a one-character separator). -/
def splitOnChar (c : Char) : List Char → List (List Char)
  | [] => [[]]
  | a :: rest =>
    if a == c then [] :: splitOnChar c rest
    else
      match splitOnChar c rest with
      | [] => [[a]]
      | h :: t => (a :: h) :: t

/-- The `/`-separated segments of a path string. -/
def splitSlash (s : String) : List String :=
  (splitOnChar (Char.ofNat 47) s.data).map String.mk

/-- Joining path segments with `/`. -/
def joinSegs : List String → String
  | [] => ""
  | [a] => a
  | a :: rest => a ++ "/" ++ joinSegs rest

/-- Normalisation applied by Node `path.join` after concatenating its
arguments with `/`: empty and `.` segments are dropped and `..` pops the
previous segment (kept literally when there is nothing left to pop in a
relative path). -/
def pathNormalize (joined : String) : String :=
  let isAbs := match joined.data with
    | c :: _ => c == Char.ofNat 47
    | [] => false
  let toks := (splitSlash joined).filter fun t => t != "" && t != "."
  let stack := toks.foldl (fun st t =>
    if t == ".." then
      match st with
      | [] => if isAbs then [] else [".."]
      | h :: rest => if h == ".." then t :: st else rest
    else t :: st) []
  let res := joinSegs stack.reverse
  let res := if isAbs then "/" ++ res else res
  if res == "" then "." else res

/-- Model of Node `path.join(a, b)` as used by the receivers. -/
def nodeJoin (a b : String) : String :=
  pathNormalize (if a == "" then b else if b == "" then a else a ++ "/" ++ b)

/-- Model of Node `path.basename`: the last non-empty `/`-separated
segment.  This is what the sender applies to its own file path, and what
the specification prescribes for the receiver. -/
def nodeBasename (s : String) : String :=
  (((splitSlash s).filter fun t => t != "").getLast?).getD s

/-- Byte image of one `lowSend` call (`proto.ts`): the 10-byte header
(`size` as little-endian u64, `name_len` as little-endian u16), then the
name bytes, then the body. -/
def lowSendBytes (name body : Bytes) : Bytes :=
  toLE 8 body.length ++ toLE 2 name.length ++ name ++ body

/-- One expected file of `awaitFiles` (`AwaitFileItem`): the source
comment on `expectedName` reads "Exact filename we expect (only used for
logging)". -/
structure AwaitFileItem where
  expectedName : String
  saveDir : String
deriving DecidableEq

/-- Parser phase of the receiver state machine. -/
inductive RState where
  | hdr
  | name
  | body
deriving DecidableEq

/-- One completed file on the receiver side: the path handed to
`createWriteStream`, the raw wire name bytes, the body bytes written to
the stream, and the bytes fed to the incremental SHA-256. -/
structure SavedFile where
  path : String
  nameBytes : Bytes
  bytes : Bytes
  shaInput : Bytes
deriving DecidableEq

/-- Full receiver state of the `awaitFiles` connection handler. -/
structure RecvSt where
  state : RState
  pending : Bytes
  fileSize : Nat
  nameLen : Nat
  received : Nat
  curName : Bytes
  curPath : String
  curBytes : Bytes
  shaAcc : Bytes
  idx : Nat
  files : List SavedFile
  logs : List String
  finished : Bool
  errored : Bool
deriving DecidableEq

/-- Model of `headerLooksSane`: `0 < size < 10^12` and
`0 < name_len ≤ 4096`. -/
def headerLooksSane (size : Nat) (nlen : Nat) : Bool :=
  decide (0 < size) && decide (size < 1000000000000) && decide (0 < nlen) && decide (nlen ≤ 4096)

/-- Model of `tryParseHeader`: while at least 10 bytes are pending, read a
candidate header; on failure slide forward one byte (the slid bytes stay
consumed) and retry.  Returns the parsed header, if any, and the pending
bytes left behind. -/
def slideHdr : Bytes → Option (Nat × Nat) × Bytes
  | [] => (none, [])
  | a :: rest =>
    if (a :: rest).length < 10 then (none, a :: rest)
    else if headerLooksSane (leRead 8 (a :: rest)) (leRead 2 ((a :: rest).drop 8)) then
      (some (leRead 8 (a :: rest), leRead 2 ((a :: rest).drop 8)), (a :: rest).drop 10)
    else slideHdr rest

/-- The `while (true)` body of the `awaitFiles` data handler, with an
explicit fuel.  Every iteration either consumes pending bytes or breaks
within two steps, so any fuel of at least twice the pending length plus a
small constant reproduces the source loop exactly; running out of fuel
behaves like `break` (wait for more data).  `errored` models the thrown
exception when `items[idx]` is accessed past the end. -/
def loopRecv (items : List AwaitFileItem) : Nat → RecvSt → RecvSt
  | 0, st => st
  | fuel+1, st =>
    if st.finished || st.errored then st
    else match st.state with
    | .hdr =>
      match slideHdr st.pending with
      | (none, rest) => { st with pending := rest }
      | (some (size, nlen), rest) =>
        loopRecv items fuel { st with pending := rest, fileSize := size, nameLen := nlen, state := .name }
    | .name =>
      if st.pending.length < st.nameLen then st
      else match items[st.idx]? with
      | none => { st with errored := true }
      | some it =>
        let nameBuf := st.pending.take st.nameLen
        loopRecv items fuel { st with
          pending := st.pending.drop st.nameLen,
          curName := nameBuf,
          curPath := nodeJoin it.saveDir (bytesToString nameBuf),
          logs := st.logs ++ ["Expecting " ++ it.expectedName],
          state := .body }
    | .body =>
      let remaining := st.fileSize - st.received
      if remaining == 0 then loopRecv items fuel { st with state := .hdr }
      else if st.pending.length == 0 then st
      else
        let toWrite := st.pending.take (min remaining st.pending.length)
        let st' := { st with
          pending := st.pending.drop toWrite.length,
          curBytes := st.curBytes ++ toWrite,
          shaAcc := st.shaAcc ++ toWrite,
          received := st.received + toWrite.length }
        if st'.received == st'.fileSize then
          let it := (items[st'.idx]?).getD ⟨"", ""⟩
          let file : SavedFile := ⟨st'.curPath, st'.curName, st'.curBytes, st'.shaAcc⟩
          let idx' := st'.idx + 1
          let logs' := st'.logs ++ ["Received " ++ it.expectedName]
          if idx' == items.length then
            { st' with files := st'.files ++ [file], idx := idx', logs := logs', finished := true }
          else
            loopRecv items fuel { st' with
              files := st'.files ++ [file], idx := idx', logs := logs',
              state := .hdr, fileSize := 0, nameLen := 0, received := 0,
              curName := [], curPath := "", curBytes := [], shaAcc := [] }
        else loopRecv items fuel st'

/-- Initial receiver state of one `awaitFiles` connection. -/
def initRecvSt : RecvSt :=
  ⟨.hdr, [], 0, 0, 0, [], "", [], [], 0, [], [], false, false⟩

/-- One `sock.on("data", chunk)` delivery: append the chunk to the pending
buffer and run the parse loop to quiescence. -/
def handleData (items : List AwaitFileItem) (st : RecvSt) (chunk : Bytes) : RecvSt :=
  loopRecv items (2 * (st.pending.length + chunk.length) + 8) { st with pending := st.pending ++ chunk }

/-- Model of one `awaitFiles` connection fed a sequence of data chunks. -/
def awaitFilesRun (items : List AwaitFileItem) (chunks : List Bytes) : RecvSt :=
  chunks.foldl (handleData items) initRecvSt

/-- Projection that forgets the log lines (the only place `expectedName`
flows into the state). -/
def stripLogs (st : RecvSt) : RecvSt :=
  { st with logs := [] }

/-! ## Artifact commitment

The COMMIT step of `run-enclave-ceremony.ts` (lines 404-429). -/

/-- The fixed, ordered list of committed artifact paths
(`filesToCommit`). -/
def filesToCommit : List String :=
  [ "circuit.circom",
    "powersOfTau.ptau",
    "circuit_0000.zkey",
    "circuit.r1cs",
    "circuit_js/circuit.wasm",
    "time-attestation.cbor",
    "drand-beacon.json",
    "circuit_final.zkey",
    "verifier.sol",
    "verifier.creation.hex",
    "verifier.extcodehash.hex" ]

/-- Model of `sha256HashOfString` (`hashes.ts`): hex digest of SHA-256
over the UTF-8 bytes of the input, with the hash function itself a
parameter. -/
def sha256HashOfString (sha : Bytes → Bytes) (input : String) : String :=
  hexEncode (sha (utf8Bytes input))

/-- Result of the COMMIT step. -/
structure CommitResult where
  fileHashes : List String
  concatenated : String
  finalAttestationNonce : String
  manifest : String
deriving DecidableEq

/-- The COMMIT step, translated line by line: map `sha256HashOfFile` over
the fixed path list, join the digests with the empty separator, hash the
concatenation, then build the `hashes.txt` lines (one `path: digest` line
per file via index access, an empty line, the `concatenated` line and the
`finalAttestationNonce` line) joined with newlines.  `fileHash` stands
for the filesystem-dependent `sha256HashOfFile`. -/
def commitStep (sha : Bytes → Bytes) (fileHash : String → String) : CommitResult :=
  let fileHashes := filesToCommit.map fileHash
  let concatenated := String.join fileHashes
  let finalAttestationNonce := sha256HashOfString sha concatenated
  let hashLines := filesToCommit.mapIdx fun idx filePath =>
    filePath ++ ": " ++ fileHashes.getD idx ""
  let allLines := hashLines ++
    ["", "concatenated: " ++ concatenated, "finalAttestationNonce: " ++ finalAttestationNonce]
  ⟨fileHashes, concatenated, finalAttestationNonce, String.intercalate "\n" allLines⟩

/-! ## Concrete instances used by witnesses -/

/-- Concrete beacon primitives: the hash is constantly `[170]` and the G2
verification accepts. -/
def wBeaconPrims : BeaconPrims :=
  { sha256 := fun _ => [170]
    keccak256 := fun _ => []
    blsVerifyG2 := fun _ _ _ => true
    verifySigOnG1 := fun _ _ _ _ => false
    bn254Verify := fun _ _ _ _ => false }

/-- A beacon that passes every check of `verifyBeacon` under
`wBeaconPrims` at round 1. -/
def wBeaconGood : DrandBeacon :=
  ⟨1, "aa", "bb", some "cc"⟩

/-- A beacon whose randomness field does not match the hash of its
signature under `wBeaconPrims`. -/
def wBeaconBadRand : DrandBeacon :=
  ⟨1, "", "bb", some "cc"⟩

/-- Concrete protected-header bytes for the attestation witness. -/
def c2phBytes : Bytes := [1]

/-- Concrete payload bytes for the attestation witness. -/
def c2payloadBytes : Bytes := [2]

/-- Concrete attestation input bytes for the attestation witness. -/
def c2input : Bytes := [9]

/-- Concrete COSE_Sign1 item the witness decoder returns for `c2input`. -/
def c2cose : CborItem :=
  .arr [.bytes c2phBytes, .map [], .bytes c2payloadBytes, .bytes [1, 1]]

/-- Concrete protected-header map with algorithm -35. -/
def c2phItem : CborItem :=
  .map [(.int 1, .int (-35))]

/-- Concrete, fully valid attestation payload map. -/
def c2docItem : CborItem :=
  .map [(.text "module_id", .text "m"),
        (.text "digest", .text "SHA384"),
        (.text "timestamp", .int 1),
        (.text "pcrs", .map [(.int 0, .bytes (List.replicate 48 0))]),
        (.text "certificate", .bytes [7]),
        (.text "cabundle", .arr [.bytes [8]])]

/-- Concrete attestation environment under which `c2input` verifies:
the decoder maps the three byte strings above to their items, every
certificate parses to a cert chained under issuer/subject "I", the clock
sits inside all validity windows, and both signature primitives accept. -/
def c2env : AttEnv :=
  { cborDecode := fun b =>
      if b == c2input then some c2cose
      else if b == c2phBytes then some c2phItem
      else if b == c2payloadBytes then some c2docItem
      else none
    cborEncode := fun _ => [3]
    parseX509 := fun b => some ⟨b, "I", "I", 0, 10, b⟩
    certVerify := fun _ _ => true
    ecdsaVerify := fun _ _ _ => true
    nowMs := 5
    pinnedRootRaw := [8] }

/-- Concrete attestation payload whose optional `nonce` field is a
65-byte byte string and which is otherwise fully valid. -/
def c6payload : List (CborItem × CborItem) :=
  [(.text "module_id", .text "i-abc"),
   (.text "digest", .text "SHA384"),
   (.text "timestamp", .int 1700000000000),
   (.text "pcrs", .map [(.int 0, .bytes (List.replicate 48 0))]),
   (.text "certificate", .bytes [7]),
   (.text "cabundle", .arr [.bytes [8]]),
   (.text "nonce", .bytes (List.replicate 65 0))]

/-! ## Theorems -/

/-- Helper: round arithmetic in closed form (milliseconds). -/
theorem getRoundAt_eq (x : Int) : getRoundAt x = max 1 ((x - 1595431050000) / 30000 + 1) := by
  simp only [getRoundAt, DEFAULT_CHAIN_INFO]
  rw [Int.fdiv_eq_ediv _ (by norm_num)]
  norm_num

/-- Helper: round time in closed form (milliseconds). -/
theorem getRoundTime_eq (r : Int) : getRoundTime r = 1595431050000 + (r - 1) * 30000 := by
  simp only [getRoundTime, DEFAULT_CHAIN_INFO]
  ring

/-- C1, counterexample: at the attestation timestamp 1700000000000 ms (the
specification's own worked example) the scheduled time of the derived
round is 1700000070000 ms, strictly less than timestamp + 90 s, so
`round_time(R) ≥ timestamp + 90 s` fails. -/
theorem C1_counterexample :
    getRoundTime (getRoundAt (1700000000000 + 90000)) < 1700000000000 + 90000 := by
  decide

/-- C1 (amended): for every timestamp `t` in milliseconds, the derived
round `R = getRoundAt(t + 90000)` has its scheduled time strictly more
than 60 s after `t`, and at most 90 s after `t` whenever `t + 90 s` is not
before the chain genesis.  The original bound `round_time(R) ≥ t + 90 s`
holds only when `t + 90 s` falls exactly on a round boundary. -/
theorem C1_round_window (t : Int) :
    t + 60000 < getRoundTime (getRoundAt (t + 90000)) ∧
    (1595431050000 ≤ t + 90000 → getRoundTime (getRoundAt (t + 90000)) ≤ t + 90000) := by
  rw [getRoundAt_eq, getRoundTime_eq]
  have hq := Int.ediv_add_emod (t + 90000 - 1595431050000) 30000
  have hr0 : 0 ≤ (t + 90000 - 1595431050000) % 30000 :=
    Int.emod_nonneg _ (by norm_num)
  have hr1 : (t + 90000 - 1595431050000) % 30000 < 30000 :=
    Int.emod_lt_of_pos _ (by norm_num)
  set q := (t + 90000 - 1595431050000) / 30000 with hqdef
  set r := (t + 90000 - 1595431050000) % 30000 with hrdef
  rcases le_or_lt (q + 1) 1 with hm | hm
  · rw [max_eq_left hm]
    exact ⟨by omega, fun hge => by omega⟩
  · rw [max_eq_right hm.le]
    exact ⟨by omega, fun hge => by omega⟩

/-- C1, witness for the amended bound at the concrete timestamp of the
specification example. -/
theorem C1_round_window_witness :
    1700000000000 + 60000 < getRoundTime (getRoundAt (1700000000000 + 90000)) ∧
    getRoundTime (getRoundAt (1700000000000 + 90000)) ≤ 1700000000000 + 90000 :=
  ⟨(C1_round_window 1700000000000).1, (C1_round_window 1700000000000).2 (by norm_num)⟩

/-- Helper: the JavaScript shifted value never exceeds `2 ^ 30`. -/
theorem jsShl1_le (P : Nat) : jsShl1 P ≤ 2 ^ 30 := by
  unfold jsShl1
  split
  · norm_num
  · rename_i h
    have h32 : P % 32 < 32 := Nat.mod_lt _ (by norm_num)
    have h31 : P % 32 ≠ 31 := by
      intro hc
      rw [hc] at h
      simp at h
    exact pow_le_pow_right₀ (by norm_num) (by omega)

/-- Helper: for constraint counts above `2 ^ 30` the selection loop never
stops, with any amount of fuel: the 32-bit-wrapped shift value is always
below the count, so the source `while` loop diverges. -/
theorem ptauLoop_none_of_big (n : Int) (hn : (2 : Int) ^ 30 < n) :
    ∀ fuel P, ptauLoop fuel P n = none := by
  intro fuel
  induction fuel with
  | zero => intro P; rfl
  | succ f ih =>
    intro P
    unfold ptauLoop
    rw [if_pos (lt_of_le_of_lt (jsShl1_le P) hn)]
    exact ih (P + 1)

/-- Helper: below 31 the JavaScript shift is an honest power of two. -/
theorem jsShl1_eq_pow (P : Nat) (h : P ≤ 30) : jsShl1 P = 2 ^ P := by
  have h1 : P % 32 = P := Nat.mod_eq_of_lt (by omega)
  have h2 : (P % 32 == 31) = false := by
    rw [h1]
    rw [beq_eq_false_iff_ne]
    omega
  unfold jsShl1
  rw [h2, if_neg (by simp), h1]

/-- Helper: the defining property of `spec_smallestP`. -/
theorem spec_smallestP_spec (n : Int) : n ≤ (2 : Int) ^ spec_smallestP n := by
  unfold spec_smallestP
  exact Nat.find_spec (p := fun P => n ≤ (2 : Int) ^ P) _

/-- Helper: minimality of `spec_smallestP`. -/
theorem spec_smallestP_min (n : Int) {P : Nat} (h : n ≤ (2 : Int) ^ P) :
    spec_smallestP n ≤ P := by
  unfold spec_smallestP
  exact Nat.find_min' (p := fun P => n ≤ (2 : Int) ^ P) _ h

/-- Helper: computation rule for `spec_smallestP`. -/
theorem spec_smallestP_eq (n : Int) (P : Nat) (h1 : n ≤ (2 : Int) ^ P)
    (h2 : ∀ m, m < P → ¬ n ≤ (2 : Int) ^ m) : spec_smallestP n = P := by
  refine le_antisymm (spec_smallestP_min n h1) ?_
  by_contra hc
  push_neg at hc
  exact h2 _ hc (spec_smallestP_spec n)

/-- Helper: for counts at most `2 ^ 30` the selection loop started at `P`
computes the smallest admissible power at or above `P`. -/
theorem ptauLoop_eq (n : Int) (hn : n ≤ (2 : Int) ^ 30) :
    ∀ fuel P, P ≤ 30 → 31 - P ≤ fuel →
      ptauLoop fuel P n = some (max P (spec_smallestP n)) := by
  intro fuel
  induction fuel with
  | zero =>
    intro P hP hf
    exfalso
    omega
  | succ f ih =>
    intro P hP hf
    unfold ptauLoop
    rw [jsShl1_eq_pow P hP]
    by_cases hlt : (2 : Int) ^ P < n
    · rw [if_pos hlt]
      have hP30 : P < 30 := by
        rcases Nat.lt_or_ge P 30 with h | h
        · exact h
        · exfalso
          have hP30' : P = 30 := by omega
          rw [hP30'] at hlt
          exact absurd hn (not_le.mpr hlt)
      have hs : P < spec_smallestP n := by
        by_contra hc
        push_neg at hc
        have h1 := spec_smallestP_spec n
        have h2 : (2 : Int) ^ spec_smallestP n ≤ 2 ^ P :=
          pow_le_pow_right₀ (by norm_num) hc
        exact absurd hlt (not_lt.mpr (h1.trans h2))
      rw [ih (P + 1) (by omega) (by omega)]
      congr 1
      omega
    · rw [if_neg hlt]
      push_neg at hlt
      have := spec_smallestP_min n hlt
      congr 1
      omega

/-- C5, counterexample: for a constraint count just above `2 ^ 28` the
selection does not fail: `getExpectedPtauFileInfo` returns the `P = 28`
catalog descriptor. -/
theorem C5_counterexample :
    getExpectedPtauFileInfo 268435457 = ptauFiles 28 ∧ (ptauFiles 28).isSome = true := by
  constructor
  · have h := ptauLoop_eq 268435457 (by norm_num) 64 1 (by norm_num) (by norm_num)
    have hs : spec_smallestP 268435457 = 29 := by
      apply spec_smallestP_eq _ 29 (by norm_num)
      decide
    unfold getExpectedPtauFileInfo
    rw [h, hs]
    decide
  · rfl

/-- C5 (amended): for every constraint count `n` with `2^28 < n ≤ 2^30`
the selection loop clamps to `P = 28` and returns that catalog
descriptor instead of aborting; the ceremony failure, if any, surfaces
only later.  (For `n > 2^30` the source loop does not terminate at all,
see `ptauLoop_none_of_big`.) -/
theorem C5_no_preflight_abort (n : Int) (h1 : 2 ^ 28 < n) (h2 : n ≤ 2 ^ 30) :
    getExpectedPtauFileInfo n = ptauFiles 28 := by
  have h := ptauLoop_eq n h2 64 1 (by norm_num) (by norm_num)
  unfold getExpectedPtauFileInfo
  rw [h]
  have hs29 : 29 ≤ spec_smallestP n := by
    by_contra hc
    push_neg at hc
    have hle : (2 : Int) ^ spec_smallestP n ≤ 2 ^ 28 :=
      pow_le_pow_right₀ (by norm_num) (by omega)
    exact absurd h1 (not_lt.mpr ((spec_smallestP_spec n).trans hle))
  show ptauFiles (min 28 (max 8 (max 1 (spec_smallestP n)))) = ptauFiles 28
  congr 1
  omega

/-- C5, witness for the amended statement. -/
theorem C5_no_preflight_abort_witness :
    getExpectedPtauFileInfo 268435458 = ptauFiles 28 :=
  C5_no_preflight_abort 268435458 (by norm_num) (by norm_num)

/-- C7, counterexample: at `n = 2^30 + 1` the selection loop never
terminates (the 32-bit shift wraps), so no catalog entry is returned at
all, while the claim promises the clamped `P = 28` entry at every `n`. -/
theorem C7_counterexample :
    getExpectedPtauFileInfo 1073741825 = none ∧ (ptauFiles 28).isSome = true := by
  constructor
  · unfold getExpectedPtauFileInfo
    rw [ptauLoop_none_of_big 1073741825 (by norm_num) 64 1]
    rfl
  · rfl

/-- C7 (amended): for every constraint count `n ≤ 2^30` the selection
returns the catalog entry for the smallest `P` with `2 ^ P ≥ n`, clamped
into `[8, 28]`; in particular `n = 1000` yields the `P = 10` entry
(maxConstraints 1024, URL `powersOfTau28_hez_final_10.ptau`) and
`n = 65537` yields the `P = 17` entry (maxConstraints 131072).  For
`n > 2^30` the source loop diverges, so the universal claim fails there. -/
theorem C7_ptau_selection :
    (∀ n : Int, n ≤ 2 ^ 30 →
      getExpectedPtauFileInfo n = ptauFiles (min 28 (max 8 (spec_smallestP n)))) ∧
    getExpectedPtauFileInfo 1000 = some ⟨1024, "6cfeb8cda92453099d20120bdd0e8a5c4e7706c2da9a8f09ccc157ed2464d921fd0437fb70db42104769efd7d6f3c1f964bcf448c455eab6f6c7d863e88a5849", 10, "https://storage.googleapis.com/zkevm/ptau/powersOfTau28_hez_final_10.ptau"⟩ ∧
    getExpectedPtauFileInfo 65537 = some ⟨131072, "6247a3433948b35fbfae414fa5a9355bfb45f56efa7ab4929e669264a0258976741dfbe3288bfb49828e5df02c2e633df38d2245e30162ae7e3bcca5b8b49345", 17, "https://storage.googleapis.com/zkevm/ptau/powersOfTau28_hez_final_17.ptau"⟩ := by
  refine ⟨?_, by decide, by decide⟩
  intro n hn
  have h := ptauLoop_eq n hn 64 1 (by norm_num) (by norm_num)
  unfold getExpectedPtauFileInfo
  rw [h]
  show ptauFiles (min 28 (max 8 (max 1 (spec_smallestP n)))) =
    ptauFiles (min 28 (max 8 (spec_smallestP n)))
  congr 1
  omega

/-- C7, witness instantiating the universal part at `n = 1000`. -/
theorem C7_ptau_selection_witness :
    getExpectedPtauFileInfo 1000 = ptauFiles (min 28 (max 8 (spec_smallestP 1000))) :=
  C7_ptau_selection.1 1000 (by norm_num)

/-- Helper: with the pinned chain, the unchained guard can never hold. -/
theorem isUnchainedBeacon_false (b : DrandBeacon) :
    isUnchainedBeacon b DEFAULT_CHAIN_INFO = false := by
  unfold isUnchainedBeacon
  rw [show (DEFAULT_CHAIN_INFO.schemeID == "pedersen-bls-unchained") = false from rfl]
  simp

/-- Helper: with the pinned chain, the swapped-G1 guard can never hold. -/
theorem isG1G2SwappedBeacon_false (b : DrandBeacon) :
    isG1G2SwappedBeacon b DEFAULT_CHAIN_INFO = false := by
  unfold isG1G2SwappedBeacon
  rw [show (DEFAULT_CHAIN_INFO.schemeID == "bls-unchained-on-g1") = false from rfl]
  simp

/-- Helper: with the pinned chain, the RFC 9380 G1 guard can never hold. -/
theorem isG1Rfc9380_false (b : DrandBeacon) :
    isG1Rfc9380 b DEFAULT_CHAIN_INFO = false := by
  unfold isG1Rfc9380
  rw [show (DEFAULT_CHAIN_INFO.schemeID == "bls-unchained-g1-rfc9380") = false from rfl]
  simp

/-- Helper: with the pinned chain, the BN254 guard can never hold. -/
theorem isBn254OnG1_false (b : DrandBeacon) :
    isBn254OnG1 b DEFAULT_CHAIN_INFO = false := by
  unfold isBn254OnG1
  rw [show (DEFAULT_CHAIN_INFO.schemeID == "bls-bn254-unchained-on-g1") = false from rfl]
  simp

/-- C3: `verifyBeacon` returns `false` whenever the beacon round differs
from the expected round or SHA-256 of the hex-decoded signature differs
from the hex-decoded randomness; and whenever it returns `true`, both
equalities hold and the signature was verified by the G2 scheme selected
from the pinned `DEFAULT_CHAIN_INFO.schemeID` (the chained guard), under
the pinned public key — the beacon record itself carries no scheme tag. -/
theorem C3_verifyBeacon (prims : BeaconPrims) (b : DrandBeacon) (R : Int) :
    (b.round ≠ R → verifyBeacon prims b R = false) ∧
    (hexDecode b.randomness ≠ prims.sha256 (hexDecode b.signature) →
      verifyBeacon prims b R = false) ∧
    (verifyBeacon prims b R = true →
      b.round = R ∧
      hexDecode b.randomness = prims.sha256 (hexDecode b.signature) ∧
      isChainedBeacon b DEFAULT_CHAIN_INFO = true ∧
      prims.blsVerifyG2 b.signature (chainedBeaconMessage prims b)
        DEFAULT_CHAIN_INFO.public_key = true) := by
  refine ⟨?_, ?_, ?_⟩
  · intro h
    unfold verifyBeacon
    rw [if_pos (show (b.round != R) = true by rw [bne_iff_ne]; exact h)]
  · intro h
    unfold verifyBeacon
    by_cases hrr : (b.round != R) = true
    · rw [if_pos hrr]
    · rw [if_neg hrr]
      have hrand : randomnessIsValid prims b = false := by
        unfold randomnessIsValid
        exact beq_eq_false_iff_ne.mpr h
      rw [hrand]
      rfl
  · intro htrue
    unfold verifyBeacon at htrue
    by_cases hrr : (b.round != R) = true
    · rw [if_pos hrr] at htrue
      exact absurd htrue (by simp)
    · rw [if_neg hrr] at htrue
      have hround : b.round = R := by
        simpa [bne_iff_ne] using hrr
      by_cases hv : randomnessIsValid prims b = true
      · rw [hv] at htrue
        simp only [Bool.not_true, isUnchainedBeacon_false, isG1G2SwappedBeacon_false,
          isG1Rfc9380_false, isBn254OnG1_false] at htrue
        have hrand : hexDecode b.randomness = prims.sha256 (hexDecode b.signature) := by
          unfold randomnessIsValid at hv
          exact eq_of_beq hv
        by_cases hc : isChainedBeacon b DEFAULT_CHAIN_INFO = true
        · rw [if_pos hc] at htrue
          simp only [Bool.false_eq_true, if_false] at htrue
          exact ⟨hround, hrand, hc, htrue⟩
        · rw [if_neg hc] at htrue
          simp at htrue
      · have hvf : randomnessIsValid prims b = false := by
          exact Bool.eq_false_iff.mpr hv
        rw [hvf] at htrue
        simp at htrue

/-- C3, witness: a round mismatch and a randomness mismatch each yield
`false`, and a fully valid chained beacon exercises the positive
direction of the theorem. -/
theorem C3_verifyBeacon_witness :
    verifyBeacon wBeaconPrims wBeaconGood 2 = false ∧
    verifyBeacon wBeaconPrims wBeaconBadRand 1 = false ∧
    wBeaconPrims.blsVerifyG2 wBeaconGood.signature
      (chainedBeaconMessage wBeaconPrims wBeaconGood) DEFAULT_CHAIN_INFO.public_key = true :=
  ⟨(C3_verifyBeacon wBeaconPrims wBeaconGood 2).1 (by decide),
   (C3_verifyBeacon wBeaconPrims wBeaconBadRand 1).2.1 (by decide),
   ((C3_verifyBeacon wBeaconPrims wBeaconGood 1).2.2 (by decide)).2.2.2⟩

/-- Helper: the indexed `path: digest` lines equal a direct map when the
digest list is the mapped hash list. -/
theorem mapIdx_getD_aux (f : String → String) :
    ∀ (l hs : List String), hs = l.map f →
      (l.mapIdx fun idx p => p ++ ": " ++ hs.getD idx "") =
        l.map fun p => p ++ ": " ++ f p := by
  intro l
  induction l with
  | nil =>
    intro hs h
    simp
  | cons a t ih =>
    intro hs h
    subst h
    simp only [List.map_cons, List.mapIdx_cons, List.getD_cons_zero, List.getD_cons_succ]
    exact congrArg _ (ih _ rfl)

/-- C9: in the COMMIT step, `concatenated` is the fold of the per-file
digests in the fixed listed order, `finalAttestationNonce` is the hex
SHA-256 of the UTF-8 bytes of `concatenated`, and the manifest text is
one `path: digest` line per committed file, a blank line, then the
`concatenated` and `finalAttestationNonce` lines, joined by newlines. -/
theorem C9_commit (sha : Bytes → Bytes) (fileHash : String → String) :
    (commitStep sha fileHash).concatenated = (filesToCommit.map fileHash).foldl (· ++ ·) "" ∧
    (commitStep sha fileHash).finalAttestationNonce =
      hexEncode (sha (utf8Bytes (commitStep sha fileHash).concatenated)) ∧
    (commitStep sha fileHash).manifest =
      String.intercalate "\n" ((filesToCommit.map fun p => p ++ ": " ++ fileHash p) ++
        ["", "concatenated: " ++ (commitStep sha fileHash).concatenated,
         "finalAttestationNonce: " ++ (commitStep sha fileHash).finalAttestationNonce]) := by
  have hcat : (commitStep sha fileHash).concatenated = String.join (filesToCommit.map fileHash) := rfl
  have hnonce : (commitStep sha fileHash).finalAttestationNonce =
      sha256HashOfString sha (String.join (filesToCommit.map fileHash)) := rfl
  have hman : (commitStep sha fileHash).manifest =
      String.intercalate "\n"
        ((filesToCommit.mapIdx fun idx p => p ++ ": " ++ (filesToCommit.map fileHash).getD idx "") ++
          ["", "concatenated: " ++ String.join (filesToCommit.map fileHash),
           "finalAttestationNonce: " ++
             sha256HashOfString sha (String.join (filesToCommit.map fileHash))]) := rfl
  refine ⟨?_, ?_, ?_⟩
  · rw [hcat]
    rfl
  · rw [hnonce, hcat]
    rfl
  · rw [hman, hcat, hnonce, mapIdx_getD_aux fileHash filesToCommit (filesToCommit.map fileHash) rfl]

/-- C2: `verifyAttestationSignatures` is boolean-valued and total by
construction (every thrown error is caught and becomes `false`), and it
returns `true` only when the outer CBOR decodes, the protected header
algorithm is -35, the document parses, the chain
`[leaf, cabundle reversed]` builds, ends byte-for-byte at the pinned
root, passes every adjacent issuer/subject, validity and signature
check, the root is currently valid, and the ECDSA-P384-SHA384 signature
over the rebuilt Sig_structure verifies under the leaf key.
Contrapositively it returns `false` whenever any of the claimed failure
modes holds. -/
theorem C2_verifyAttestation (env : AttEnv) (attestation : Bytes)
    (h : verifyAttestationSignatures env attestation = true) :
    (env.cborDecode attestation).isSome = true ∧
    (∃ ph u payload sig,
      decodeCoseSign1 env attestation = .ok (ph, u, payload, sig) ∧
      protectedAlgOk env ph = .ok () ∧
      (∃ doc chain root leaf der,
        parseAttestationDocument env attestation = .ok doc ∧
        buildChain env doc = .ok chain ∧
        chain.getLast? = some root ∧
        root.raw = env.pinnedRootRaw ∧
        chainPairsOk env chain = .ok () ∧
        isCertCurrentlyValid env root = true ∧
        ecdsaRsToDer sig = .ok der ∧
        chain.head? = some leaf ∧
        env.ecdsaVerify leaf.publicKey der (sigStructureBytes env ph payload) = true)) := by
  unfold verifyAttestationSignatures at h
  cases hE : verifyAttE env attestation with
  | error e => rw [hE] at h; simp at h
  | ok u0 =>
    clear h
    unfold verifyAttE at hE
    cases h1 : decodeCoseSign1 env attestation with
    | error e => simp [h1] at hE
    | ok tup =>
      obtain ⟨ph, uh, payload, sig⟩ := tup
      simp only [h1] at hE
      cases h2 : protectedAlgOk env ph with
      | error e => simp [h2] at hE
      | ok u2 =>
        simp only [h2] at hE
        cases h3 : parseAttestationDocument env attestation with
        | error e => simp [h3] at hE
        | ok doc =>
          simp only [h3] at hE
          cases h4 : buildChain env doc with
          | error e => simp [h4] at hE
          | ok chain =>
            simp only [h4] at hE
            cases h5 : chain.getLast? with
            | none => simp [h5] at hE
            | some root =>
              simp only [h5] at hE
              cases h6 : root.raw == env.pinnedRootRaw with
              | false => simp [h6] at hE
              | true =>
                simp only [h6, Bool.not_true, Bool.false_eq_true, if_false] at hE
                cases h7 : chainPairsOk env chain with
                | error e => simp [h7] at hE
                | ok u7 =>
                  simp only [h7] at hE
                  cases h8 : isCertCurrentlyValid env root with
                  | false => simp [h8] at hE
                  | true =>
                    simp only [h8, Bool.not_true, Bool.false_eq_true, if_false] at hE
                    cases h9 : ecdsaRsToDer sig with
                    | error e => simp [h9] at hE
                    | ok der =>
                      simp only [h9] at hE
                      cases h10 : chain.head? with
                      | none => simp [h10] at hE
                      | some leaf =>
                        simp only [h10] at hE
                        cases h11 : env.ecdsaVerify leaf.publicKey der
                            (sigStructureBytes env ph payload) with
                        | false => simp [h11] at hE
                        | true =>
                          have hdec : (env.cborDecode attestation).isSome = true := by
                            unfold decodeCoseSign1 at h1
                            cases hd : env.cborDecode attestation with
                            | none => rw [hd] at h1; simp at h1
                            | some d => rfl
                          exact ⟨hdec, ph, uh, payload, sig, rfl, (by
                            cases u2
                            exact h2), doc, chain, root, leaf, der, rfl, h4, h5,
                            eq_of_beq h6, (by
                              cases u7
                              exact h7), h8, h9, h10, h11⟩

set_option maxRecDepth 4000 in
/-- C2, witness: a concrete environment and input on which
`verifyAttestationSignatures` returns `true`, fed through the theorem. -/
theorem C2_verifyAttestation_witness :
    (c2env.cborDecode c2input).isSome = true ∧
    (parseAttestationDocument c2env c2input).isOk = true := by
  have h := C2_verifyAttestation c2env c2input (by decide)
  refine ⟨h.1, ?_⟩
  obtain ⟨-, ph, u, payload, sig, -, -, doc, chain, root, leaf, der, hdoc, -⟩ := h
  rw [hdoc]
  rfl

set_option maxRecDepth 16000 in
/-- C6: evaluating the payload validator on a concrete, otherwise valid
attestation document whose `nonce` is a 65-byte byte string: the parse
succeeds (the source checks the nonce against a 512-byte cap), so a
nonce longer than the documented 64-byte cap is not rejected. -/
theorem C6_nonce_not_rejected :
    (parsePayload c6payload).isOk = true ∧
    ((parsePayload c6payload).toOption.bind AttestationDocument.nonce).map String.length =
      some 130 := by
  constructor
  · decide
  · decide

/-- Helper: a `k`-byte little-endian encoding has length `k`. -/
theorem toLE_length (k v : Nat) : (toLE k v).length = k := by
  induction k generalizing v with
  | zero => rfl
  | succ k ih => simp [toLE, ih]

/-- Helper: reading back a little-endian encoding recovers the value,
independently of any trailing bytes. -/
theorem leRead_toLE (k : Nat) : ∀ v : Nat, v < 256 ^ k → ∀ rest : Bytes,
    leRead k (toLE k v ++ rest) = v := by
  induction k with
  | zero =>
    intro v hv rest
    interval_cases v
    rfl
  | succ k ih =>
    intro v hv rest
    show leRead (k + 1) ((v % 256 :: toLE k (v / 256)) ++ rest) = v
    rw [List.cons_append]
    show v % 256 + 256 * leRead k (toLE k (v / 256) ++ rest) = v
    rw [ih (v / 256) (by
      rw [Nat.div_lt_iff_lt_mul (by norm_num)]
      calc v < 256 ^ (k + 1) := hv
        _ = 256 ^ k * 256 := by ring) rest]
    exact Nat.mod_add_div v 256

/-- Helper: on a buffer whose first ten bytes already form a sane header,
`slideHdr` parses it without sliding. -/
theorem slideHdr_of_sane (p : Bytes) (h10 : 10 ≤ p.length)
    (hsane : headerLooksSane (leRead 8 p) (leRead 2 (p.drop 8)) = true) :
    slideHdr p = (some (leRead 8 p, leRead 2 (p.drop 8)), p.drop 10) := by
  cases p with
  | nil => simp at h10
  | cons a rest =>
    unfold slideHdr
    rw [if_neg (by
      simp only [List.length_cons] at h10 ⊢
      omega), if_pos hsane]

/-- Helper: `slideHdr` on a well-formed frame prefix returns the encoded
size and name length and leaves exactly the frame tail pending. -/
theorem slideHdr_frame (s n : Nat) (rest : Bytes)
    (hsane : headerLooksSane s n = true) (hs : s < 256 ^ 8) (hn : n < 256 ^ 2) :
    slideHdr (toLE 8 s ++ (toLE 2 n ++ rest)) = (some (s, n), rest) := by
  have e8 : leRead 8 (toLE 8 s ++ (toLE 2 n ++ rest)) = s := leRead_toLE 8 s hs _
  have hdrop8 : (toLE 8 s ++ (toLE 2 n ++ rest)).drop 8 = toLE 2 n ++ rest := by
    have := List.drop_left (toLE 8 s) (toLE 2 n ++ rest)
    rwa [toLE_length] at this
  have e2 : leRead 2 (toLE 2 n ++ rest) = n := leRead_toLE 2 n hn _
  have hdrop10 : (toLE 8 s ++ (toLE 2 n ++ rest)).drop 10 = rest := by
    rw [show (10 : Nat) = 8 + 2 from rfl, ← List.drop_drop, hdrop8]
    have := List.drop_left (toLE 2 n) rest
    rwa [toLE_length] at this
  rw [slideHdr_of_sane _ (by
      simp only [List.length_append, toLE_length]
      omega) (by rw [e8, hdrop8, e2]; exact hsane)]
  rw [e8, hdrop8, e2, hdrop10]

/-- Helper: one header-parsing step of the receiver loop. -/
theorem loopRecv_hdr_step (items : List AwaitFileItem) (f : Nat) (st : RecvSt)
    (s n : Nat) (rest : Bytes)
    (h0 : st.finished = false) (h1 : st.errored = false) (h2 : st.state = .hdr)
    (h3 : slideHdr st.pending = (some (s, n), rest)) :
    loopRecv items (f + 1) st =
      loopRecv items f
        { st with pending := rest, fileSize := s, nameLen := n, state := .name } := by
  obtain ⟨state, pending, fileSize, nameLen, received, curName, curPath, curBytes,
    shaAcc, idx, files, logs, finished, errored⟩ := st
  dsimp only at h0 h1 h2 h3 ⊢
  subst h0 h1 h2
  simp only [loopRecv, h3]
  simp

/-- Helper: one name-parsing step of the receiver loop. -/
theorem loopRecv_name_step (items : List AwaitFileItem) (f : Nat) (st : RecvSt)
    (it : AwaitFileItem)
    (h0 : st.finished = false) (h1 : st.errored = false) (h2 : st.state = .name)
    (h3 : st.nameLen ≤ st.pending.length) (h5 : items[st.idx]? = some it) :
    loopRecv items (f + 1) st =
      loopRecv items f
        { st with
          pending := st.pending.drop st.nameLen,
          curName := st.pending.take st.nameLen,
          curPath := nodeJoin it.saveDir (bytesToString (st.pending.take st.nameLen)),
          logs := st.logs ++ ["Expecting " ++ it.expectedName],
          state := .body } := by
  obtain ⟨state, pending, fileSize, nameLen, received, curName, curPath, curBytes,
    shaAcc, idx, files, logs, finished, errored⟩ := st
  dsimp only at h0 h1 h2 h3 h5 ⊢
  subst h0 h1 h2
  simp only [loopRecv, h5]
  rw [if_neg (show ¬List.length pending < nameLen by omega)]
  simp

/-- Helper: one body step of the receiver loop that completes the last
expected file: the whole pending buffer is written, the file record is
appended, and the handler finishes. -/
theorem loopRecv_body_last (items : List AwaitFileItem) (f : Nat) (st : RecvSt)
    (it : AwaitFileItem)
    (h0 : st.finished = false) (h1 : st.errored = false) (h2 : st.state = .body)
    (h3 : st.fileSize = st.received + st.pending.length) (h4 : st.pending ≠ [])
    (h5 : items[st.idx]? = some it) (h6 : st.idx + 1 = items.length) :
    loopRecv items (f + 1) st =
      { st with
        pending := [],
        curBytes := st.curBytes ++ st.pending,
        shaAcc := st.shaAcc ++ st.pending,
        received := st.received + st.pending.length,
        files := st.files ++
          [⟨st.curPath, st.curName, st.curBytes ++ st.pending, st.shaAcc ++ st.pending⟩],
        idx := st.idx + 1,
        logs := st.logs ++ ["Received " ++ it.expectedName],
        finished := true } := by
  obtain ⟨state, pending, fileSize, nameLen, received, curName, curPath, curBytes,
    shaAcc, idx, files, logs, finished, errored⟩ := st
  dsimp only at h0 h1 h2 h3 h4 h5 h6 ⊢
  subst h0 h1 h2 h3
  have hlen : 0 < pending.length := List.length_pos.mpr h4
  have e1 : received + pending.length - received = pending.length := by omega
  have hc1 : (pending.length == 0) = false := beq_eq_false_iff_ne.mpr (by omega)
  have hc2 : (received + pending.length == received + pending.length) = true := by simp
  have hc3 : (idx + 1 == items.length) = true := beq_iff_eq.mpr h6
  simp only [loopRecv, e1, hc1, hc2, hc3, h5, Option.getD_some, Nat.min_self,
    List.take_length, List.drop_length, Bool.or_self, Bool.false_eq_true, if_false,
    Bool.true_eq_false, if_true]

set_option maxHeartbeats 1000000 in
/-- C8: frame round-trip.  For any body `B` with `0 < |B| < 10^12` and
any name `N` with `0 < |N| ≤ 4096` bytes, feeding the receiver the exact
byte image produced by `lowSend` yields one finished file whose body
bytes equal `B` and whose SHA-256 input equals `B` (so its digest is
SHA-256 of `B`), saved under the wire name inside the item's directory. -/
theorem C8_frame_roundtrip (it : AwaitFileItem) (N B : Bytes)
    (hN1 : 0 < N.length) (hN2 : N.length ≤ 4096) (hB1 : 0 < B.length)
    (hB2 : B.length < 1000000000000) :
    (awaitFilesRun [it] [lowSendBytes N B]).files =
      [⟨nodeJoin it.saveDir (bytesToString N), N, B, B⟩] ∧
    (awaitFilesRun [it] [lowSendBytes N B]).finished = true := by
  have hsane : headerLooksSane B.length N.length = true := by
    simp only [headerLooksSane, Bool.and_eq_true, decide_eq_true_eq]
    omega
  have h256_8 : B.length < 256 ^ 8 := by
    have h : (256 : Nat) ^ 8 = 18446744073709551616 := by norm_num
    omega
  have h256_2 : N.length < 256 ^ 2 := by
    have h : (256 : Nat) ^ 2 = 65536 := by norm_num
    omega
  have hslide : slideHdr (lowSendBytes N B) = (some (B.length, N.length), N ++ B) := by
    unfold lowSendBytes
    simp only [List.append_assoc]
    exact slideHdr_frame B.length N.length (N ++ B) hsane h256_8 h256_2
  unfold awaitFilesRun handleData initRecvSt
  simp only [List.foldl_cons, List.foldl_nil, List.nil_append, List.length_nil]
  obtain ⟨m, hm⟩ : ∃ m, 2 * (0 + (lowSendBytes N B).length) + 8 = m + 3 :=
    ⟨2 * (0 + (lowSendBytes N B).length) + 5, by omega⟩
  rw [hm, show m + 3 = (m + 2) + 1 from rfl]
  rw [loopRecv_hdr_step [it] (m + 2)
    { state := .hdr, pending := lowSendBytes N B, fileSize := 0, nameLen := 0, received := 0,
      curName := [], curPath := "", curBytes := [], shaAcc := [], idx := 0, files := [],
      logs := [], finished := false, errored := false }
    B.length N.length (N ++ B) rfl rfl rfl hslide]
  dsimp only
  rw [show m + 2 = (m + 1) + 1 from rfl]
  rw [loopRecv_name_step [it] (m + 1)
    { state := .name, pending := N ++ B, fileSize := B.length, nameLen := N.length,
      received := 0, curName := [], curPath := "", curBytes := [], shaAcc := [], idx := 0,
      files := [], logs := [], finished := false, errored := false }
    it rfl rfl rfl (show N.length ≤ (N ++ B).length by rw [List.length_append]; omega) rfl]
  dsimp only
  rw [List.take_left, List.drop_left]
  rw [show m + 1 = m + 0 + 1 from rfl]
  rw [loopRecv_body_last [it] (m + 0)
    { state := .body, pending := B, fileSize := B.length, nameLen := N.length,
      received := 0, curName := N, curPath := nodeJoin it.saveDir (bytesToString N),
      curBytes := [], shaAcc := [], idx := 0, files := [],
      logs := [] ++ ["Expecting " ++ it.expectedName], finished := false, errored := false }
    it rfl rfl rfl (show B.length = 0 + B.length by omega) (List.length_pos.mp hB1) rfl rfl]
  simp

/-- C8, witness: concrete name and body bytes through the round-trip
theorem. -/
theorem C8_frame_roundtrip_witness :
    (awaitFilesRun [⟨"f", "d"⟩] [lowSendBytes [104, 105] [1, 2, 3]]).files =
      [⟨nodeJoin "d" (bytesToString [104, 105]), [104, 105], [1, 2, 3], [1, 2, 3]⟩] ∧
    (awaitFilesRun [⟨"f", "d"⟩] [lowSendBytes [104, 105] [1, 2, 3]]).finished = true :=
  C8_frame_roundtrip ⟨"f", "d"⟩ [104, 105] [1, 2, 3] (by decide) (by decide) (by decide)
    (by decide)

set_option maxRecDepth 8000 in
/-- C4: the receiver saves under `join(saveDir, wireName)` with the raw
wire name — no `basename` is applied.  At the concrete frame carrying the
name `../evil` (bytes 46 46 47 101 118 105 108) with saveDir `save`, the
file is created at path `evil`, which is outside `save` (it is not
`save/<anything>`), while the basename semantics promised by the
specification would have confined it to `save/evil`. -/
theorem C4_no_basename_on_receiver :
    (awaitFilesRun [⟨"circuit.circom", "save"⟩]
        [lowSendBytes [46, 46, 47, 101, 118, 105, 108] [7]]).files.map SavedFile.path
      = ["evil"] ∧
    bytesToString [46, 46, 47, 101, 118, 105, 108] = "../evil" ∧
    nodeJoin "save" "../evil" = "evil" ∧
    ((splitSlash "evil").head? == some "save") = false ∧
    nodeBasename "../evil" = "evil" ∧
    nodeJoin "save" (nodeBasename "../evil") = "save/evil" ∧
    ((splitSlash "save/evil").head? == some "save") = true := by
  refine ⟨by decide, by decide, by decide, by decide, by decide, by decide, by decide⟩

/-- Helper: the receiver loop is log-invariant in `expectedName`: two
item lists with the same save directories (expected names may differ
arbitrarily) drive the parser through identical states, files, paths and
completion — the expected names reach only the log lines. -/
theorem loopRecv_stripLogs (items1 items2 : List AwaitFileItem)
    (hmap : items1.map AwaitFileItem.saveDir = items2.map AwaitFileItem.saveDir) :
    ∀ fuel st1 st2, stripLogs st1 = stripLogs st2 →
      stripLogs (loopRecv items1 fuel st1) = stripLogs (loopRecv items2 fuel st2) := by
  have hlen : items1.length = items2.length := by
    have h := congrArg List.length hmap
    simpa using h
  have hidx : ∀ i : Nat, (items1[i]?).map AwaitFileItem.saveDir =
      (items2[i]?).map AwaitFileItem.saveDir := by
    intro i
    rw [← List.getElem?_map, ← List.getElem?_map, hmap]
  intro fuel
  induction fuel with
  | zero => intro st1 st2 h; exact h
  | succ f ih =>
    intro st1 st2 h
    obtain ⟨s1, p1, fs1, nl1, r1, cn1, cp1, cb1, sa1, i1, f1, l1, fin1, er1⟩ := st1
    obtain ⟨s2, p2, fs2, nl2, r2, cn2, cp2, cb2, sa2, i2, f2, l2, fin2, er2⟩ := st2
    simp only [stripLogs, RecvSt.mk.injEq] at h
    obtain ⟨hs, hp, hfs, hnl, hr, hcn, hcp, hcb, hsa, hi, hf, -, hfin, her⟩ := h
    subst hs hp hfs hnl hr hcn hcp hcb hsa hi hf hfin her
    simp only [loopRecv]
    by_cases hfe : (fin1 || er1) = true
    · simp [stripLogs, hfe]
    · rw [Bool.eq_false_iff.mpr hfe] at *
      simp only [Bool.false_eq_true, if_false]
      cases s1 with
      | hdr =>
        rcases hsl : slideHdr p1 with ⟨o, rest⟩
        cases o with
        | none => simp [hsl, stripLogs]
        | some sn =>
          obtain ⟨s, n⟩ := sn
          simp only [hsl]
          exact ih _ _ (by simp [stripLogs])
      | name =>
        by_cases hln : p1.length < nl1
        · simp [hln, stripLogs]
        · simp only [hln, if_false]
          have hix := hidx i1
          cases ho1 : items1[i1]? with
          | none =>
            cases ho2 : items2[i1]? with
            | none => simp [ho1, ho2, stripLogs]
            | some it2 => rw [ho1, ho2] at hix; simp at hix
          | some it1 =>
            cases ho2 : items2[i1]? with
            | none => rw [ho1, ho2] at hix; simp at hix
            | some it2 =>
              rw [ho1, ho2] at hix
              simp only [Option.map_some', Option.some.injEq] at hix
              simp only [ho1, ho2]
              exact ih _ _ (by simp [stripLogs, hix])
      | body =>
        by_cases hrem : (fs1 - r1 == 0) = true
        · simp only [hrem, if_true]
          exact ih _ _ (by simp [stripLogs])
        · simp only [hrem, Bool.false_eq_true, if_false]
          by_cases hpe : (p1.length == 0) = true
          · simp [hpe, stripLogs]
          · simp only [hpe, Bool.false_eq_true, if_false]
            by_cases hdone : (r1 + (p1.take (min (fs1 - r1) p1.length)).length == fs1) = true
            · simp only [hdone, if_true]
              by_cases hlast : (i1 + 1 == items1.length) = true
              · have hlast2 : (i1 + 1 == items2.length) = true := by
                  rw [← hlen]; exact hlast
                simp [hlast, hlast2, stripLogs]
              · have hlast2 : (i1 + 1 == items2.length) = false := by
                  rw [← hlen]; exact Bool.eq_false_iff.mpr hlast
                simp only [hlast, hlast2, Bool.false_eq_true, if_false,
                  Bool.eq_false_iff.mpr hlast]
                exact ih _ _ (by simp [stripLogs])
            · simp only [hdone, Bool.false_eq_true, if_false]
              exact ih _ _ (by simp [stripLogs])

set_option maxRecDepth 8000 in
/-- C10: the receiver matches incoming files to expected items purely by
arrival order.  First, the whole run is invariant (up to log lines) under
arbitrary changes of the items' `expectedName` fields, which shows the
transmitted filename is never compared with `expectedName`.  Second, on a
concrete two-file stream whose wire names (`x`, `y`) contradict the
expected names (`b`, `a`), the first arriving file is saved, hashed and
counted as item 0 and the second as item 1, in their items' directories
under the wire names. -/
theorem C10_arrival_order :
    (∀ (items1 items2 : List AwaitFileItem) (chunks : List Bytes),
      items1.map AwaitFileItem.saveDir = items2.map AwaitFileItem.saveDir →
      stripLogs (awaitFilesRun items1 chunks) = stripLogs (awaitFilesRun items2 chunks)) ∧
    (awaitFilesRun [⟨"b", "d1"⟩, ⟨"a", "d2"⟩]
        [lowSendBytes [120] [1] ++ lowSendBytes [121] [2, 3]]).files =
      [⟨"d1/x", [120], [1], [1]⟩, ⟨"d2/y", [121], [2, 3], [2, 3]⟩] ∧
    (awaitFilesRun [⟨"b", "d1"⟩, ⟨"a", "d2"⟩]
        [lowSendBytes [120] [1] ++ lowSendBytes [121] [2, 3]]).finished = true := by
  refine ⟨?_, by decide, by decide⟩
  intro items1 items2 chunks hmap
  unfold awaitFilesRun
  have key : ∀ (cs : List Bytes) (st1 st2 : RecvSt), stripLogs st1 = stripLogs st2 →
      stripLogs (cs.foldl (handleData items1) st1) =
        stripLogs (cs.foldl (handleData items2) st2) := by
    intro cs
    induction cs with
    | nil => intro st1 st2 h; exact h
    | cons c rest ih =>
      intro st1 st2 h
      simp only [List.foldl_cons]
      apply ih
      unfold handleData
      have hp0 := congrArg RecvSt.pending h
      have hp : st1.pending = st2.pending := hp0
      rw [hp]
      apply loopRecv_stripLogs items1 items2 hmap
      obtain ⟨s1, p1, fs1, nl1, r1, cn1, cp1, cb1, sa1, i1, f1, l1, fin1, er1⟩ := st1
      obtain ⟨s2, p2, fs2, nl2, r2, cn2, cp2, cb2, sa2, i2, f2, l2, fin2, er2⟩ := st2
      simp only [stripLogs, RecvSt.mk.injEq] at h ⊢
      obtain ⟨hs, hp', hfs, hnl, hr, hcn, hcp, hcb, hsa, hi, hf, -, hfin, her⟩ := h
      subst hs hp' hfs hnl hr hcn hcp hcb hsa hi hf hfin her
      simp
  exact key chunks initRecvSt initRecvSt rfl

/-- C10, witness: the invariance applied to two singleton item lists that
differ only in their expected names. -/
theorem C10_arrival_order_witness :
    stripLogs (awaitFilesRun [⟨"x", "d"⟩] [[5]]) =
      stripLogs (awaitFilesRun [⟨"y", "d"⟩] [[5]]) :=
  C10_arrival_order.1 [⟨"x", "d"⟩] [⟨"y", "d"⟩] [[5]] rfl
